import Mathlib

/-!
Shallow embedding of the two source files of this repository:

* `src/crates/eframe/src/web/web_painter.rs` — the `WebPainter` trait, a
  renderer interface for a browser canvas.
* `src/crates/egui_extras/src/dock/behavior.rs` — the `Behavior<Leaf>` trait,
  rendering callbacks and style defaults for a tiled dock.

Rust `f32` values are modelled as rationals (`Rat`); every constant appearing
in the embedded code (20.0, 1.0, 32.0, 0.0) is exactly representable, so no
rounding is lost. External `egui` / `web_sys` value types that the two files
use but do not define (`Color32`, `Stroke`, `Visuals`, `Style`,
`HtmlCanvasElement`, `JsValue`, ...) are modelled as plain records carrying
exactly the fields the embedded code reads.
-/

/-- Rust `f32`, modelled as an exact rational. -/
abbrev F32 := Rat

/-- Model of `web_sys::HtmlCanvasElement` (external browser type; the embedded
code only passes references to it around, so it is a plain token). -/
structure HtmlCanvasElement where
  elemId : Nat
deriving DecidableEq

/-- Model of `wasm_bindgen::JsValue`, the generic javascript error value used
by `paint_and_update_textures`. -/
structure JsValue where
  value : String
deriving DecidableEq

/-- Model of `egui::ClippedPrimitive` (external type, contents unused here). -/
structure ClippedPrimitive where
  data : Nat
deriving DecidableEq

/-- Model of `egui::TexturesDelta` (external type, contents unused here). -/
structure TexturesDelta where
  data : Nat
deriving DecidableEq

/-- Model of `egui::ColorImage` (external type, contents unused here). -/
structure ColorImage where
  data : Nat
deriving DecidableEq

/-- Dictionary embedding of the `WebPainter` trait
(`src/crates/eframe/src/web/web_painter.rs`, lines 6-30): one field per trait
item, over an implementor state type `P`.  The constructor
`new(canvas, options)` is commented out in the source (lines 7-10), so it is
not a field here.  `paint_and_update_textures` takes `&mut self` and returns
`Result<Option<ColorImage>, JsValue>`; the mutation is modelled by also
returning the updated state, and the `Result` by `Except JsValue`. -/
structure WebPainter (P : Type) where
  canvas : P → HtmlCanvasElement
  max_texture_side : P → Nat
  paint_and_update_textures :
    P → (Fin 4 → F32) → List ClippedPrimitive → F32 → TexturesDelta → Bool →
      P × Except JsValue (Option ColorImage)
  destroy : P → P

/-- The names of the items declared by the `WebPainter` trait, in source
order.  Transcribed from the trait declaration: `canvas`,
`max_texture_side`, `paint_and_update_textures`, `destroy`.  The constructor
`new` appears only inside a comment (lines 7-10) and is therefore not an
item of the trait. -/
def WebPainter.items : List String :=
  ["canvas", "max_texture_side", "paint_and_update_textures", "destroy"]

/-- The items of the `WebPainter` trait, as an enumeration (same content as
`WebPainter.items`, usable in decidable statements about signatures). -/
inductive WebPainterItem where
  | canvas
  | max_texture_side
  | paint_and_update_textures
  | destroy
deriving DecidableEq

/-- Shape of the error component of a trait item's return type. -/
inductive ErrorKind where
  | noError
  | jsValue
deriving DecidableEq

/-- Error component of each `WebPainter` item's return type, transcribed from
the source signatures: `canvas` returns `&HtmlCanvasElement`,
`max_texture_side` returns `usize`, `destroy` returns `()` — none of these is
a `Result` — while `paint_and_update_textures` returns
`Result<Option<ColorImage>, JsValue>`. -/
def WebPainterItem.errorKind : WebPainterItem → ErrorKind
  | .canvas => .noError
  | .max_texture_side => .noError
  | .paint_and_update_textures => .jsValue
  | .destroy => .noError

/-! Value types used by `behavior.rs`.  These are `egui` types external to the
two source files; each record carries the fields the embedded code reads. -/

/-- Model of `egui::Color32` (a premultiplied sRGBA color with `u8`
components; the embedded code only moves such colors around and compares
them, so the components are plain naturals). -/
structure Color32 where
  r : Nat
  g : Nat
  b : Nat
  a : Nat
deriving DecidableEq

/-- `Color32::TRANSPARENT`: all components zero. -/
def Color32.TRANSPARENT : Color32 := ⟨0, 0, 0, 0⟩

/-- Model of `egui::Stroke`: a line width and a color. -/
structure Stroke where
  width : F32
  color : Color32
deriving DecidableEq

/-- `Stroke::new(width, color)`. -/
def Stroke.new (width : F32) (color : Color32) : Stroke := ⟨width, color⟩

/-- `Stroke::NONE`: zero width, transparent color. -/
def Stroke.NONE : Stroke := ⟨0, Color32.TRANSPARENT⟩

/-- Model of `egui::style::WidgetVisuals`, restricted to the fields read by
`behavior.rs`: `bg_fill` and `fg_stroke` (the real struct has further fields
this code never touches). -/
structure WidgetVisuals where
  bg_fill : Color32
  fg_stroke : Stroke
deriving DecidableEq

/-- Model of `egui::style::Widgets`, restricted to the widget states read by
`behavior.rs`: `noninteractive`, `hovered` and `active`. -/
structure Widgets where
  noninteractive : WidgetVisuals
  hovered : WidgetVisuals
  active : WidgetVisuals
deriving DecidableEq

/-- Model of `egui::Visuals`, restricted to what `behavior.rs` reads: the
per-state widget visuals and the result of the `window_fill()` accessor
(modelled as a field, since the accessor's body lives outside the two source
files). -/
structure Visuals where
  widgets : Widgets
  window_fill : Color32
deriving DecidableEq

/-- Model of `egui::Style`, restricted to its `visuals` field. -/
structure Style where
  visuals : Visuals
deriving DecidableEq

/-- The resize-handle interaction state matched on by `resize_stroke`
(`ResizeState` from the dock module; the match in the source covers exactly
these three cases with no wildcard). -/
inductive ResizeState where
  | Idle
  | Hovering
  | Dragging
deriving DecidableEq

/-- Tab text, i.e. `egui::WidgetText`; the embedded code builds it either
from `tab_text_for_leaf` or from a formatted string, so a string suffices. -/
abbrev WidgetText := String

/-- Node identifier (`NodeId` from the dock module, a numeric id). -/
abbrev NodeId := Nat

/-- The dock layout enumeration carried by a branch (from the dock module,
outside the two source files); `debugFormat` below models its `Debug`
formatting. -/
inductive Layout where
  | Tabs
  | Horizontal
  | Vertical
  | Grid
deriving DecidableEq

/-- The `Debug` formatting of a `Layout`, as produced by `format!` on it. -/
def Layout.debugFormat : Layout → String
  | .Tabs => "Tabs"
  | .Horizontal => "Horizontal"
  | .Vertical => "Vertical"
  | .Grid => "Grid"

/-- A dock branch (from the dock module); `behavior.rs` only calls
`get_layout()` on it, so only the layout is carried. -/
structure Branch where
  layout : Layout
deriving DecidableEq

/-- `Branch::get_layout`. -/
def Branch.get_layout (b : Branch) : Layout := b.layout

/-- A dock node: either a leaf with user content or a branch
(`Node<Leaf>` from the dock module). -/
inductive Node (Leaf : Type) where
  | Leaf : Leaf → Node Leaf
  | Branch : Branch → Node Leaf
deriving DecidableEq

/-- The node store (`Nodes<Leaf>` from the dock module): a finite map from
`NodeId` to `Node`, modelled as an association list; `lookup` models map
indexing, with `none` for the absent-key case, where the Rust `Index`
operation panics. -/
structure Nodes (Leaf : Type) where
  nodes : List (NodeId × Node Leaf)
deriving DecidableEq

namespace Behavior

/-! Default implementations of the overridable methods of the
`Behavior<Leaf>` trait (`src/crates/egui_extras/src/dock/behavior.rs`).
Each default that calls another `self` method takes that method as an
explicit function argument, modelling dynamic dispatch to a possibly
overridden implementation. -/

/-- Default `Behavior::tab_text_for_node` (lines 14-19): index the node map
at `node_id` (a panic on an absent key, modelled as `none`), then return
`tab_text_for_leaf(leaf)` for a leaf and the `Debug` formatting of the
branch's layout for a branch.  `tab_text_for_leaf` is the dispatched `self`
method. -/
def tab_text_for_node {Leaf : Type} (tab_text_for_leaf : Leaf → WidgetText)
    (nodes : Nodes Leaf) (node_id : NodeId) : Option WidgetText :=
  match nodes.nodes.lookup node_id with
  | none => none
  | some (Node.Leaf leaf) => some (tab_text_for_leaf leaf)
  | some (Node.Branch branch) => some branch.get_layout.debugFormat

/-- Default `Behavior::retain_leaf` (lines 68-70): always `true`. -/
def retain_leaf {Leaf : Type} (_leaf : Leaf) : Bool :=
  true

/-- Default `Behavior::tab_bar_height` (lines 76-78): the constant `20.0`,
ignoring the style. -/
def tab_bar_height (_style : Style) : F32 :=
  20

/-- Default `Behavior::gap_width` (lines 82-84): the constant `1.0`,
ignoring the style. -/
def gap_width (_style : Style) : F32 :=
  1

/-- Default `Behavior::min_size` (lines 87-89): the constant `32.0`. -/
def min_size : F32 :=
  32

/-- Default `Behavior::resize_stroke` (lines 95-101): `Stroke::NONE` when
idle, the hovered widgets' `fg_stroke` when hovering, the active widgets'
`fg_stroke` when dragging. -/
def resize_stroke (style : Style) (resize_state : ResizeState) : Stroke :=
  match resize_state with
  | ResizeState.Idle => Stroke.NONE
  | ResizeState.Hovering => style.visuals.widgets.hovered.fg_stroke
  | ResizeState.Dragging => style.visuals.widgets.active.fg_stroke

/-- Default `Behavior::tab_bg_color` (lines 108-116): `visuals.window_fill()`
for an active tab, otherwise `self.tab_bar_color(visuals)`.  `tab_bar_color`
is the dispatched `self` method, so an override of it flows into this
default. -/
def tab_bg_color (tab_bar_color : Visuals → Color32) (visuals : Visuals)
    (active : Bool) : Color32 :=
  if active then
    visuals.window_fill
  else
    tab_bar_color visuals

/-- Default `Behavior::tab_outline_stroke` (lines 119-125):
`Stroke::new(1.0, visuals.widgets.active.bg_fill)` for an active tab,
otherwise `Stroke::NONE`. -/
def tab_outline_stroke (visuals : Visuals) (active : Bool) : Stroke :=
  if active then
    Stroke.new 1 visuals.widgets.active.bg_fill
  else
    Stroke.NONE

end Behavior

/-! ## Claims -/

/-- C1, counterexample: no create operation (`new`, nor any item named
`create`) is an item of the `WebPainter` trait — the constructor is commented
out in the source — so the claimed four-operation interface containing a
create operation is not the trait's interface. -/
theorem c1_no_create_item :
    "new" ∉ WebPainter.items ∧ "create" ∉ WebPainter.items := by
  decide

/-- C1 (amended): the `WebPainter` trait's interface consists of exactly the
four items `canvas`, `max_texture_side`, `paint_and_update_textures` and
`destroy`; a create operation is not among them (the constructor signature is
present only as a comment). -/
theorem c1_webpainter_items :
    WebPainter.items
        = ["canvas", "max_texture_side", "paint_and_update_textures",
           "destroy"] ∧
      "new" ∉ WebPainter.items ∧ "create" ∉ WebPainter.items := by
  decide

/-- C2: `paint_and_update_textures` is the only `WebPainter` item whose
return type carries an error variant, and its error type is `JsValue`; every
other item is infallible. -/
theorem c2_paint_only_fallible :
    ∀ i : WebPainterItem,
      (WebPainterItem.errorKind i = ErrorKind.jsValue
          ↔ i = WebPainterItem.paint_and_update_textures) ∧
        (i ≠ WebPainterItem.paint_and_update_textures →
          WebPainterItem.errorKind i = ErrorKind.noError) := by
  intro i
  cases i <;> exact ⟨by decide, by decide⟩

/-- C2, witness: instantiating at `canvas`, which differs from
`paint_and_update_textures` and is infallible. -/
theorem c2_paint_only_fallible_witness :
    WebPainterItem.canvas ≠ WebPainterItem.paint_and_update_textures ∧
      WebPainterItem.errorKind WebPainterItem.canvas = ErrorKind.noError :=
  ⟨by decide, (c2_paint_only_fallible WebPainterItem.canvas).2 (by decide)⟩

/-- C3: the default style settings ignore their style argument: for every
style, `tab_bar_height` is `20.0`, `gap_width` is `1.0`, and `min_size` is
`32.0`. -/
theorem c3_default_settings_constant (style : Style) :
    Behavior.tab_bar_height style = 20 ∧
      Behavior.gap_width style = 1 ∧
      Behavior.min_size = 32 :=
  ⟨rfl, rfl, rfl⟩

/-- C4: the default `resize_stroke` is determined solely by the resize
state: `Stroke::NONE` when idle, the hovered `fg_stroke` when hovering, and
the active `fg_stroke` when dragging. -/
theorem c4_resize_stroke_cases (style : Style) :
    Behavior.resize_stroke style ResizeState.Idle = Stroke.NONE ∧
      Behavior.resize_stroke style ResizeState.Hovering
          = style.visuals.widgets.hovered.fg_stroke ∧
      Behavior.resize_stroke style ResizeState.Dragging
          = style.visuals.widgets.active.fg_stroke :=
  ⟨rfl, rfl, rfl⟩

/-- C5: the default tab outline stroke depends only on the `active` flag:
`Stroke::NONE` when inactive, and a stroke of width `1.0` with color
`visuals.widgets.active.bg_fill` when active. -/
theorem c5_tab_outline_stroke_cases (visuals : Visuals) :
    Behavior.tab_outline_stroke visuals false = Stroke.NONE ∧
      Behavior.tab_outline_stroke visuals true
          = Stroke.new 1 visuals.widgets.active.bg_fill ∧
      (Behavior.tab_outline_stroke visuals true).width = 1 ∧
      (Behavior.tab_outline_stroke visuals true).color
          = visuals.widgets.active.bg_fill :=
  ⟨rfl, rfl, rfl, rfl⟩

/-- C7: the default `tab_text_for_node` is defined exactly when `node_id` is
a key of the node map (the direct indexing panics otherwise, modelled as
`none`); under that precondition it returns `tab_text_for_leaf(leaf)` for a
leaf node and the `Debug` formatting of the branch's layout for a branch
node. -/
theorem c7_tab_text_for_node_spec {Leaf : Type}
    (tab_text_for_leaf : Leaf → WidgetText) (nodes : Nodes Leaf)
    (node_id : NodeId) :
    (Behavior.tab_text_for_node tab_text_for_leaf nodes node_id = none
        ↔ nodes.nodes.lookup node_id = none) ∧
      (∀ leaf, nodes.nodes.lookup node_id = some (Node.Leaf leaf) →
        Behavior.tab_text_for_node tab_text_for_leaf nodes node_id
            = some (tab_text_for_leaf leaf)) ∧
      (∀ branch, nodes.nodes.lookup node_id = some (Node.Branch branch) →
        Behavior.tab_text_for_node tab_text_for_leaf nodes node_id
            = some branch.get_layout.debugFormat) := by
  unfold Behavior.tab_text_for_node
  refine ⟨?_, ?_, ?_⟩
  · cases h : nodes.nodes.lookup node_id with
    | none => simp
    | some node => cases node <;> simp
  · intro leaf h
    rw [h]
  · intro branch h
    rw [h]

/-- C7, witness: a concrete node map with one leaf and one branch; looking up
an absent key yields `none`, the leaf key yields the leaf's tab text, and the
branch key yields the layout's `Debug` formatting. -/
theorem c7_tab_text_for_node_spec_witness :
    Behavior.tab_text_for_node (fun s : String => s)
          ⟨[(1, Node.Leaf "A"), (2, Node.Branch ⟨Layout.Tabs⟩)]⟩ 3 = none ∧
      Behavior.tab_text_for_node (fun s : String => s)
          ⟨[(1, Node.Leaf "A"), (2, Node.Branch ⟨Layout.Tabs⟩)]⟩ 1
            = some "A" ∧
      Behavior.tab_text_for_node (fun s : String => s)
          ⟨[(1, Node.Leaf "A"), (2, Node.Branch ⟨Layout.Tabs⟩)]⟩ 2
            = some "Tabs" :=
  ⟨(c7_tab_text_for_node_spec (fun s : String => s)
      ⟨[(1, Node.Leaf "A"), (2, Node.Branch ⟨Layout.Tabs⟩)]⟩ 3).1.mpr rfl,
    (c7_tab_text_for_node_spec (fun s : String => s)
      ⟨[(1, Node.Leaf "A"), (2, Node.Branch ⟨Layout.Tabs⟩)]⟩ 1).2.1 "A" rfl,
    (c7_tab_text_for_node_spec (fun s : String => s)
      ⟨[(1, Node.Leaf "A"), (2, Node.Branch ⟨Layout.Tabs⟩)]⟩ 2).2.2
      ⟨Layout.Tabs⟩ rfl⟩

/-- C8: the default tab background color is defined relationally: for every
dispatched `tab_bar_color` and every visuals, the active background is
`visuals.window_fill()` and the inactive background is exactly
`tab_bar_color(visuals)` — so overriding `tab_bar_color` changes the
background of every inactive tab. -/
theorem c8_tab_bg_color_relational (tab_bar_color : Visuals → Color32)
    (visuals : Visuals) :
    Behavior.tab_bg_color tab_bar_color visuals true = visuals.window_fill ∧
      Behavior.tab_bg_color tab_bar_color visuals false
          = tab_bar_color visuals :=
  ⟨rfl, rfl⟩

/-- C9: the default `retain_leaf` returns `true` on every leaf of every leaf
type, so the retain check never removes a leaf unless overridden. -/
theorem c9_retain_leaf_true {Leaf : Type} (leaf : Leaf) :
    Behavior.retain_leaf leaf = true :=
  rfl
